import Mathlib

/-!
Shallow embedding of the free-game monitor pipeline (src/main.py, class
`AdvancedGameMonitor`).  Raw JSON response data is modelled by an inductive
`Json` type; the in-memory tracked-game dictionary by an association list in
insertion order; exceptions raised and caught in the Python code by `Except`
values that the catching layer folds back into normal results; the Discord
delivery environment (channel id validity, channel lookup, send success) by a
record of booleans.  Every function mirrors the line structure of the source.
-/

set_option autoImplicit false

namespace GameMonitor

/-- JSON-like values as produced by `response.json()`: Python `None`, `bool`,
numbers, strings, lists and dicts (dicts in insertion order, keys unique). -/
inductive Json where
  | null : Json
  | bool : Bool → Json
  | num : Int → Json
  | str : String → Json
  | arr : List Json → Json
  | obj : List (String × Json) → Json

mutual

/-- Structural equality of JSON values (Python `==` on parsed JSON). -/
def Json.beq : Json → Json → Bool
  | .null, .null => true
  | .bool a, .bool b => a == b
  | .num a, .num b => a == b
  | .str a, .str b => a == b
  | .arr xs, .arr ys => Json.beqList xs ys
  | .obj xs, .obj ys => Json.beqFields xs ys
  | _, _ => false

/-- Elementwise equality of JSON lists. -/
def Json.beqList : List Json → List Json → Bool
  | [], [] => true
  | x :: xs, y :: ys => Json.beq x y && Json.beqList xs ys
  | _, _ => false

/-- Entrywise equality of JSON object field lists. -/
def Json.beqFields : List (String × Json) → List (String × Json) → Bool
  | [], [] => true
  | (k1, v1) :: xs, (k2, v2) :: ys => k1 == k2 && Json.beq v1 v2 && Json.beqFields xs ys
  | _, _ => false

end

instance : BEq Json := ⟨Json.beq⟩

/-- Python truthiness of a JSON value: `None`, `False`, `0`, `""`, `[]`, `{}`
are falsy, everything else is truthy. -/
def truthy : Json → Bool
  | .null => false
  | .bool b => b
  | .num n => n != 0
  | .str s => s != ""
  | .arr xs => !xs.isEmpty
  | .obj fs => !fs.isEmpty

/-- First value stored under `key` in a Python-dict field list. -/
def getField : List (String × Json) → String → Option Json
  | [], _ => none
  | (k, v) :: rest, key => if k = key then some v else getField rest key

/-- Python `x.get(key, dflt)`: `none` models the `AttributeError` raised when
`x` is not a dict. -/
def dictGet : Json → String → Json → Option Json
  | .obj fs, key, dflt => some ((getField fs key).getD dflt)
  | _, _, _ => none

/-- Whether a JSON value is hashable in Python, i.e. usable as a dict key;
lists and dicts raise `TypeError` on `in`/`[]=`. -/
def hashable : Json → Bool
  | .arr _ => false
  | .obj _ => false
  | _ => true

/-- `self.tracked_games : Dict[str, datetime]` — insertion-ordered map from
game id to discovery time.  Ids come straight from JSON, so keys are `Json`
values; time is abstracted to `Nat`. -/
abbrev Store := List (Json × Nat)

/-- Python `game_id in self.tracked_games`. -/
def Store.containsKey (s : Store) (k : Json) : Bool :=
  s.any fun p => p.1 == k

/-- Python `self.tracked_games[game_id] = datetime.now()` for an absent key:
the new entry is appended in insertion order. -/
def Store.insertKey (s : Store) (k : Json) (t : Nat) : Store :=
  s ++ [(k, t)]

/-- Lines 126-127 of `process_game_data` as one check-then-insert operation:
returns the updated store and whether this call performed the insertion. -/
def tryInsert (s : Store) (k : Json) (t : Nat) : Store × Bool :=
  if Store.containsKey s k then (s, false) else (Store.insertKey s k t, true)

/-- `is_game_free` (src/main.py lines 134-147): reads
`game_data.get('promotions', {}).get('promotionalOffers', [])` and returns its
truthiness; any exception (attribute access on a non-dict) is caught and
yields `False`. -/
def is_game_free (game_data : Json) : Bool :=
  match dictGet game_data "promotions" (Json.obj []) with
  | none => false
  | some promotions =>
    match dictGet promotions "promotionalOffers" (Json.arr []) with
    | none => false
    | some offers => truthy offers

/-- Modelled from the spec (section 4.2, for comparison with `is_game_free`):
an item is free iff its promotions structure contains at least one
promotional-offer entry; absence of the substructure, an empty offer list, or
any malformed substructure is not free. -/
def specIsFree (game_data : Json) : Bool :=
  match game_data with
  | .obj fs =>
    match getField fs "promotions" with
    | some (.obj pfs) =>
      match getField pfs "promotionalOffers" with
      | some (.arr offers) => !offers.isEmpty
      | _ => false
    | _ => false
  | _ => false

/-- The promotions/promotionalOffers substructure read by `is_game_free` is
either absent or an actual list (the well-formed shapes, on which the code and
the spec rule agree). -/
def offersWellFormed (game_data : Json) : Bool :=
  match dictGet game_data "promotions" (Json.obj []) with
  | none => true
  | some promotions =>
    match dictGet promotions "promotionalOffers" (Json.arr []) with
    | none => true
    | some (.arr _) => true
    | some _ => false

/-- Python exceptions that the embedded code raises and catches. -/
inductive PyErr where
  | attributeError : PyErr
  | typeError : PyErr
  | keyError : PyErr

/-- Whether an `Except` computation raised. -/
def isError {α : Type} : Except PyErr α → Bool
  | .error _ => true
  | .ok _ => false

/-- Python `data[key]` string indexing: `KeyError` on a dict without the key,
`TypeError` on any non-dict. -/
def jsonIndex : Json → String → Except PyErr Json
  | .obj fs, key =>
    match getField fs key with
    | some v => .ok v
    | none => .error .keyError
  | _, _ => .error .typeError

/-- Python `for x in v`: dicts iterate over their keys, strings over their
one-character substrings, non-iterables raise `TypeError` (`none`). -/
def jsonIter : Json → Option (List Json)
  | .arr xs => some xs
  | .obj fs => some (fs.map fun f => Json.str f.1)
  | .str s => some (s.data.map fun c => Json.str (String.singleton c))
  | _ => none

/-- Line 99: `data['data']['Catalog']['searchStore']['elements']`. -/
def extractGames (data : Json) : Except PyErr Json := do
  let d ← jsonIndex data "data"
  let c ← jsonIndex d "Catalog"
  let s ← jsonIndex c "searchStore"
  jsonIndex s "elements"

/-- Delivery environment of `send_game_alert`, the state the code reads from
the outside world: whether `int(os.getenv('DISCORD_CHANNEL_ID'))` succeeds,
whether `self.get_channel` finds the channel, and whether `channel.send`
succeeds. -/
structure NotifyEnv where
  channelIdValid : Bool
  channelFound : Bool
  sendSucceeds : Bool

/-- How one invocation of `send_game_alert` ends.  Every branch is reached by
a `return` or a caught exception: nothing propagates to the caller. -/
inductive SendOutcome where
  | invalidChannelId : SendOutcome
  | channelNotFound : SendOutcome
  | unknownPlatform : SendOutcome
  | embedError : SendOutcome
  | deliveryFailed : SendOutcome
  | delivered : SendOutcome
deriving DecidableEq

/-- Lines 196-199: scan `keyImages` entries for one with `type == 'Thumbnail'`
and read its `url`; a non-dict entry or a matching entry without `url`
raises. -/
def findThumbnail : List Json → Except PyErr (Option Json)
  | [] => .ok none
  | img :: rest =>
    match img with
    | .obj fs =>
      if (getField fs "type").getD Json.null == Json.str "Thumbnail" then
        match getField fs "url" with
        | some u => .ok (some u)
        | none => .error .keyError
      else findThumbnail rest
    | _ => .error .attributeError

/-- Lines 194-199: `if game_data.get('keyImages'): for image in ...`; embed
field access on a non-dict `game_data` raises (line 164). -/
def thumbnailStep : Json → Except PyErr (Option Json)
  | .obj fs =>
    match getField fs "keyImages" with
    | none => .ok none
    | some v =>
      if truthy v then
        match jsonIter v with
        | none => .error .typeError
        | some imgs => findThumbnail imgs
      else .ok none
  | _ => .error .attributeError

/-- `send_game_alert` (src/main.py lines 149-205): resolve the channel, build
the embed (including the thumbnail scan) and send it; the enclosing
`try`/`except` turns every failure into a logged outcome, so the function
never raises and never touches `tracked_games`. -/
def send_game_alert (env : NotifyEnv) (game_data : Json) (platform : String) : SendOutcome :=
  if !env.channelIdValid then .invalidChannelId
  else if !env.channelFound then .channelNotFound
  else if platform != "epic_games" && platform != "steam" then .unknownPlatform
  else
    match thumbnailStep game_data with
    | .error _ => .embedError
    | .ok _ => if env.sendSucceeds then .delivered else .deliveryFailed

/-- Observable events of one run: fetch attempts, alert invocations (with the
processed record, the platform tag and the delivery outcome), and log
lines. -/
inductive Event where
  | epicAttempt : Event
  | steamAttempt : Event
  | alert : Json → String → SendOutcome → Event
  | errorLog : String → Event
  | info : String → Event

/-- Whether an event is an invocation of `send_game_alert`. -/
def isAlert : Event → Bool
  | .alert _ _ _ => true
  | _ => false

/-- Number of alert invocations in an event trace. -/
def countAlerts (es : List Event) : Nat :=
  (es.filter isAlert).length

/-- The `game_id` computed on line 122: `game_data.get('id')` of a dict,
defaulting to `None`. -/
def idOf : Json → Json
  | .obj fs => (getField fs "id").getD Json.null
  | _ => Json.null

/-- Body of the `try` in `process_game_data` (lines 121-130): read the id,
test freeness, test membership (which raises `TypeError` on an unhashable
id), insert, alert.  `.error` models an exception reaching line 131. -/
def process_inner (env : NotifyEnv) (store : Store) (game_data : Json)
    (platform : String) (t : Nat) : Except PyErr (Store × List Event) :=
  match game_data with
  | .obj fs =>
    let game_id := (getField fs "id").getD Json.null
    if is_game_free game_data then
      if hashable game_id then
        if Store.containsKey store game_id then .ok (store, [])
        else
          .ok (Store.insertKey store game_id t,
               [Event.alert game_data platform (send_game_alert env game_data platform)])
      else .error .typeError
    else .ok (store, [])
  | _ => .error .attributeError

/-- `process_game_data` (src/main.py lines 119-132): the `try` body with every
exception caught on line 131 and logged. -/
def process_game_data (env : NotifyEnv) (store : Store) (game_data : Json)
    (platform : String) (t : Nat) : Store × List Event :=
  match process_inner env store game_data platform t with
  | .ok r => r
  | .error _ => (store, [Event.errorLog "Game processing error"])

/-- Lines 101-102: process each record of the fetched list in order. -/
def processAll (env : NotifyEnv) (store : Store) (games : List Json)
    (platform : String) (t : Nat) : Store × List Event :=
  match games with
  | [] => (store, [])
  | g :: rest =>
    let r1 := process_game_data env store g platform t
    let r2 := processAll env r1.1 rest platform t
    (r2.1, r1.2 ++ r2.2)

/-- Outcome of one `session.get` + `.json()` round trip: a transport-level
exception, or a status code with either a parsed body or a body on which
`.json()` raises (`none`). -/
inductive FetchResult where
  | transportError : FetchResult
  | response : Nat → Option Json → FetchResult

/-- `check_epic_games` (src/main.py lines 93-105): on status 200 parse the
body, extract the catalog elements and process each; any exception inside the
`try` (transport, JSON decode, missing path, non-iterable elements) is caught
on line 104 and logged; a non-200 status falls through silently. -/
def check_epic_games (env : NotifyEnv) (store : Store) (r : FetchResult)
    (t : Nat) : Store × List Event :=
  match r with
  | .transportError => (store, [Event.epicAttempt, Event.errorLog "Epic Games API error"])
  | .response status body =>
    if status = 200 then
      match body with
      | none => (store, [Event.epicAttempt, Event.errorLog "Epic Games API error"])
      | some data =>
        match extractGames data with
        | .error _ => (store, [Event.epicAttempt, Event.errorLog "Epic Games API error"])
        | .ok elements =>
          match jsonIter elements with
          | none => (store, [Event.epicAttempt, Event.errorLog "Epic Games API error"])
          | some games =>
            let r := processAll env store games "epic_games" t
            (r.1, Event.epicAttempt :: r.2)
    else (store, [Event.epicAttempt])

/-- `check_steam_games` (src/main.py lines 107-117): fetch, and on a parsed
200 response only log an info line; no store access, no alert. -/
def check_steam_games (store : Store) (r : FetchResult) : Store × List Event :=
  match r with
  | .transportError => (store, [Event.steamAttempt, Event.errorLog "Steam API error"])
  | .response status body =>
    if status = 200 then
      match body with
      | none => (store, [Event.steamAttempt, Event.errorLog "Steam API error"])
      | some _ => (store, [Event.steamAttempt, Event.info "Steam store analysis completed"])
    else (store, [Event.steamAttempt])

/-- Everything one cycle of the monitor loop reads from the outside world. -/
structure World where
  epic : FetchResult
  steam : FetchResult
  env : NotifyEnv
  time : Nat

/-- One firing of the `monitor_games` loop (lines 76-85): Epic check, rate
pause, Steam check, with the surrounding `try`/`except` catching anything the
stages let through (they let nothing through). -/
def monitor_games_cycle (store : Store) (w : World) : Store × List Event :=
  let r1 := check_epic_games w.env store w.epic w.time
  let r2 := check_steam_games r1.1 w.steam
  (r2.1, r1.2 ++ r2.2)

/-- The loop across cycles: `tasks.loop` re-fires `monitor_games` for each
element of the schedule. -/
def run_cycles (store : Store) (ws : List World) : Store × List Event :=
  match ws with
  | [] => (store, [])
  | w :: rest =>
    let r1 := monitor_games_cycle store w
    let r2 := run_cycles r1.1 rest
    (r2.1, r1.2 ++ r2.2)

/-- Whether an event is a Steam fetch attempt. -/
def isSteamAttempt : Event → Bool
  | .steamAttempt => true
  | _ => false

/-- Whether an event is an Epic fetch attempt. -/
def isEpicAttempt : Event → Bool
  | .epicAttempt => true
  | _ => false

/-- The fetch-failure cases of the claim for the Epic adapter: transport
error, JSON-decode error, non-success status, or a 200 body whose expected
nested path is absent/malformed (including non-iterable elements). -/
def epicFetchFails (r : FetchResult) : Bool :=
  match r with
  | .transportError => true
  | .response status body =>
    if status = 200 then
      match body with
      | none => true
      | some data =>
        match extractGames data with
        | .error _ => true
        | .ok elements => (jsonIter elements).isNone
    else true

/-- A delivery environment in which everything works. -/
def happyEnv : NotifyEnv := ⟨true, true, true⟩

/-- A delivery environment in which `channel.send` raises. -/
def sendFailEnv : NotifyEnv := ⟨true, true, false⟩

/-- Scenario A, first record: `{id:"A1", promotions:{offers:[{}]}}` — the
offer list is the code's `promotionalOffers` field. -/
def gA1 : Json :=
  .obj [("id", .str "A1"), ("promotions", .obj [("promotionalOffers", .arr [.obj []])])]

/-- Scenario A, second record: `{id:"A2", promotions:{offers:[]}}`. -/
def gA2 : Json :=
  .obj [("id", .str "A2"), ("promotions", .obj [("promotionalOffers", .arr [])])]

/-- A 200-response body whose catalog element list is exactly scenario A's two
records. -/
def scenarioABody : Json :=
  .obj [("data", .obj [("Catalog", .obj [("searchStore",
    .obj [("elements", .arr [gA1, gA2])])])])]

/-- Field list of a free record with upstream id `"X"`. -/
def gXfields : List (String × Json) :=
  [("id", .str "X"), ("promotions", .obj [("promotionalOffers", .arr [.obj []])])]

/-- A free record with upstream id `"X"`. -/
def gX : Json := .obj gXfields

/-- Field list of a free record with no `id` field at all. -/
def gNoIdFields : List (String × Json) :=
  [("promotions", .obj [("promotionalOffers", .arr [.obj []])])]

/-- A free record with no `id` field. -/
def gNoId : Json := .obj gNoIdFields

/-- A record whose `promotionalOffers` value is the malformed non-list
`true`. -/
def gBadOffers : Json :=
  .obj [("promotions", .obj [("promotionalOffers", .bool true)])]

/-- A free record with upstream id `"A3"`. -/
def gA3 : Json :=
  .obj [("id", .str "A3"), ("promotions", .obj [("promotionalOffers", .arr [.obj []])])]

/-! ## Basic lemmas about the embedded operations -/

mutual

/-- Structural JSON equality is reflexive. -/
theorem Json.beq_refl : ∀ a : Json, Json.beq a a = true
  | .null => rfl
  | .bool b => by simp [Json.beq]
  | .num n => by simp [Json.beq]
  | .str s => by simp [Json.beq]
  | .arr xs => by simp [Json.beq, Json.beqList_refl xs]
  | .obj fs => by simp [Json.beq, Json.beqFields_refl fs]

/-- Elementwise JSON list equality is reflexive. -/
theorem Json.beqList_refl : ∀ xs : List Json, Json.beqList xs xs = true
  | [] => rfl
  | x :: xs => by simp [Json.beqList, Json.beq_refl x, Json.beqList_refl xs]

/-- Entrywise JSON field-list equality is reflexive. -/
theorem Json.beqFields_refl : ∀ fs : List (String × Json), Json.beqFields fs fs = true
  | [] => rfl
  | (k, v) :: fs => by simp [Json.beqFields, Json.beq_refl v, Json.beqFields_refl fs]

end

/-- The `==` form of reflexivity, for `Store.containsKey` goals. -/
theorem Json.beq_self (a : Json) : (a == a) = true :=
  Json.beq_refl a

/-- A key just inserted is found by a membership test. -/
theorem Store.containsKey_insertKey_self (s : Store) (k : Json) (t : Nat) :
    Store.containsKey (Store.insertKey s k t) k = true := by
  unfold Store.containsKey Store.insertKey
  rw [List.any_append]
  simp [Json.beq_self]

/-- Insertion preserves the presence of every existing key. -/
theorem Store.containsKey_insertKey_mono (s : Store) (k k2 : Json) (t : Nat)
    (h : Store.containsKey s k = true) :
    Store.containsKey (Store.insertKey s k2 t) k = true := by
  unfold Store.containsKey Store.insertKey
  rw [List.any_append]
  unfold Store.containsKey at h
  rw [h]
  simp

/-- `process_game_data` on a new free record with a hashable id: the id is
inserted and one alert is attempted. -/
theorem process_new_free (env : NotifyEnv) (s : Store) (fs : List (String × Json))
    (p : String) (t : Nat)
    (hfree : is_game_free (Json.obj fs) = true)
    (hhash : hashable ((getField fs "id").getD Json.null) = true)
    (hnew : Store.containsKey s ((getField fs "id").getD Json.null) = false) :
    process_game_data env s (Json.obj fs) p t =
      (Store.insertKey s ((getField fs "id").getD Json.null) t,
       [Event.alert (Json.obj fs) p (send_game_alert env (Json.obj fs) p)]) := by
  simp [process_game_data, process_inner, hfree, hhash, hnew]

/-- `process_game_data` on a free record whose id is already tracked: no
store change, no alert. -/
theorem process_dup (env : NotifyEnv) (s : Store) (fs : List (String × Json))
    (p : String) (t : Nat)
    (hfree : is_game_free (Json.obj fs) = true)
    (hhash : hashable ((getField fs "id").getD Json.null) = true)
    (hdup : Store.containsKey s ((getField fs "id").getD Json.null) = true) :
    process_game_data env s (Json.obj fs) p t = (s, []) := by
  simp [process_game_data, process_inner, hfree, hhash, hdup]

/-- `process_game_data` on a record that raised inside the `try`: the store
is unchanged and only the error log is emitted. -/
theorem process_error (env : NotifyEnv) (s : Store) (g : Json) (p : String) (t : Nat)
    (hbad : isError (process_inner env s g p t) = true) :
    process_game_data env s g p t = (s, [Event.errorLog "Game processing error"]) := by
  unfold process_game_data
  cases hpi : process_inner env s g p t with
  | ok r =>
    rw [hpi] at hbad
    simp [isError] at hbad
  | error e => rfl

/-- The store after `process_game_data` is the input store or the input store
with the record's id appended. -/
theorem process_store_shape (env : NotifyEnv) (s : Store) (g : Json) (p : String) (t : Nat) :
    (process_game_data env s g p t).1 = s ∨
    (process_game_data env s g p t).1 = Store.insertKey s (idOf g) t := by
  cases g with
  | obj fs =>
    by_cases hfree : is_game_free (Json.obj fs) = true
    · by_cases hhash : hashable ((getField fs "id").getD Json.null) = true
      · by_cases hdup : Store.containsKey s ((getField fs "id").getD Json.null) = true
        · left
          rw [process_dup env s fs p t hfree hhash hdup]
        · right
          rw [process_new_free env s fs p t hfree hhash (Bool.not_eq_true _ ▸ hdup)]
          rfl
      · left
        have hbad : isError (process_inner env s (Json.obj fs) p t) = true := by
          simp [process_inner, isError, hfree, Bool.not_eq_true _ ▸ hhash]
        rw [process_error env s (Json.obj fs) p t hbad]
    · left
      simp [process_game_data, process_inner, Bool.not_eq_true _ ▸ hfree]
  | null => left; rfl
  | bool b => left; rfl
  | num n => left; rfl
  | str s2 => left; rfl
  | arr xs => left; rfl

/-- `process_game_data` never loses a tracked key. -/
theorem process_containsKey_mono (env : NotifyEnv) (s : Store) (g : Json) (p : String)
    (t : Nat) (k : Json) (h : Store.containsKey s k = true) :
    Store.containsKey (process_game_data env s g p t).1 k = true := by
  cases process_store_shape env s g p t with
  | inl heq => rw [heq]; exact h
  | inr heq => rw [heq]; exact Store.containsKey_insertKey_mono s k (idOf g) t h

/-- Every event emitted by `process_game_data` is an alert invocation or the
processing-error log line. -/
theorem process_events_shape (env : NotifyEnv) (s : Store) (g : Json) (p : String) (t : Nat) :
    ∀ e ∈ (process_game_data env s g p t).2,
      isAlert e = true ∨ e = Event.errorLog "Game processing error" := by
  cases hpi : process_inner env s g p t with
  | error e2 =>
    have := process_error env s g p t (by rw [hpi]; rfl)
    rw [this]
    intro e he
    rw [List.mem_singleton] at he
    right
    exact he
  | ok r =>
    have hpg : process_game_data env s g p t = r := by
      unfold process_game_data
      rw [hpi]
    rw [hpg]
    cases g with
    | obj fs =>
      intro e he
      revert hpi
      simp only [process_inner]
      by_cases hfree : is_game_free (Json.obj fs) = true
      · by_cases hhash : hashable ((getField fs "id").getD Json.null) = true
        · by_cases hdup : Store.containsKey s ((getField fs "id").getD Json.null) = true
          · simp only [hfree, hhash, hdup, if_true]
            intro hr
            cases hr
            simp at he
          · simp only [hfree, hhash, Bool.not_eq_true _ ▸ hdup, if_true, if_false]
            intro hr
            cases hr
            rw [List.mem_singleton] at he
            left
            rw [he]
            rfl
        · simp [hfree, Bool.not_eq_true _ ▸ hhash]
      · simp only [Bool.not_eq_true _ ▸ hfree, if_false]
        intro hr
        cases hr
        simp at he
    | null => intro e he; cases hpi
    | bool b => intro e he; cases hpi
    | num n => intro e he; cases hpi
    | str s2 => intro e he; cases hpi
    | arr xs => intro e he; cases hpi

/-- Processing a concatenation of record lists is processing the first list
and then the second from the reached store. -/
theorem processAll_append (env : NotifyEnv) (s : Store) (xs ys : List Json)
    (p : String) (t : Nat) :
    processAll env s (xs ++ ys) p t =
      ((processAll env (processAll env s xs p t).1 ys p t).1,
       (processAll env s xs p t).2 ++ (processAll env (processAll env s xs p t).1 ys p t).2) := by
  induction xs generalizing s with
  | nil => simp [processAll]
  | cons g rest ih =>
    simp only [List.cons_append, processAll]
    rw [List.append_eq, ih]
    simp [List.append_assoc]

/-- `processAll` never loses a tracked key. -/
theorem processAll_containsKey_mono (env : NotifyEnv) (s : Store) (gs : List Json)
    (p : String) (t : Nat) (k : Json) (h : Store.containsKey s k = true) :
    Store.containsKey (processAll env s gs p t).1 k = true := by
  induction gs generalizing s with
  | nil => exact h
  | cons g rest ih =>
    simp only [processAll]
    exact ih _ (process_containsKey_mono env s g p t k h)

/-- Every event emitted by `processAll` is an alert invocation or the
processing-error log line. -/
theorem processAll_events_shape (env : NotifyEnv) (s : Store) (gs : List Json)
    (p : String) (t : Nat) :
    ∀ e ∈ (processAll env s gs p t).2,
      isAlert e = true ∨ e = Event.errorLog "Game processing error" := by
  induction gs generalizing s with
  | nil => intro e he; simp [processAll] at he
  | cons g rest ih =>
    intro e he
    simp only [processAll, List.mem_append] at he
    cases he with
    | inl h1 => exact process_events_shape env s g p t e h1
    | inr h2 => exact ih _ e h2

/-- `processAll` events carry no fetch-attempt markers. -/
theorem processAll_no_attempts (env : NotifyEnv) (s : Store) (gs : List Json)
    (p : String) (t : Nat) :
    (processAll env s gs p t).2.countP isEpicAttempt = 0 ∧
    (processAll env s gs p t).2.countP isSteamAttempt = 0 := by
  constructor <;>
  · rw [List.countP_eq_zero]
    intro e he
    cases processAll_events_shape env s gs p t e he with
    | inl h1 => cases e <;> simp_all [isAlert, isEpicAttempt, isSteamAttempt]
    | inr h2 => rw [h2]; simp [isEpicAttempt, isSteamAttempt]

/-- `check_epic_games` emits exactly one Epic fetch attempt and no Steam
fetch attempt. -/
theorem check_epic_games_attempts (env : NotifyEnv) (s : Store) (r : FetchResult) (t : Nat) :
    (check_epic_games env s r t).2.countP isEpicAttempt = 1 ∧
    (check_epic_games env s r t).2.countP isSteamAttempt = 0 := by
  cases r with
  | transportError => simp [check_epic_games, isEpicAttempt, isSteamAttempt]
  | response status body =>
    by_cases hst : status = 200
    · cases body with
      | none => simp [check_epic_games, hst, isEpicAttempt, isSteamAttempt]
      | some data =>
        cases hE : extractGames data with
        | error e => simp [check_epic_games, hst, hE, isEpicAttempt, isSteamAttempt]
        | ok elements =>
          cases hI : jsonIter elements with
          | none => simp [check_epic_games, hst, hE, hI, isEpicAttempt, isSteamAttempt]
          | some games =>
            have hp := processAll_no_attempts env s games "epic_games" t
            simp [check_epic_games, hst, hE, hI, isEpicAttempt, isSteamAttempt, hp.1, hp.2]
    · simp [check_epic_games, hst, isEpicAttempt, isSteamAttempt]

/-- `check_steam_games` leaves the store unchanged, attempts no alert, emits
exactly one Steam fetch attempt and no Epic fetch attempt. -/
theorem check_steam_games_frame (s : Store) (r : FetchResult) :
    (check_steam_games s r).1 = s ∧
    countAlerts (check_steam_games s r).2 = 0 ∧
    (check_steam_games s r).2.countP isSteamAttempt = 1 ∧
    (check_steam_games s r).2.countP isEpicAttempt = 0 := by
  cases r with
  | transportError => simp [check_steam_games, countAlerts, isAlert, isSteamAttempt, isEpicAttempt]
  | response status body =>
    by_cases hst : status = 200
    · cases body with
      | none => simp [check_steam_games, hst, countAlerts, isAlert, isSteamAttempt, isEpicAttempt]
      | some data => simp [check_steam_games, hst, countAlerts, isAlert, isSteamAttempt, isEpicAttempt]
    · simp [check_steam_games, hst, countAlerts, isAlert, isSteamAttempt, isEpicAttempt]

/-- One monitor cycle attempts each source's fetch exactly once, for every
combination of fetch outcomes and delivery environments. -/
theorem monitor_cycle_attempts (s : Store) (w : World) :
    (monitor_games_cycle s w).2.countP isEpicAttempt = 1 ∧
    (monitor_games_cycle s w).2.countP isSteamAttempt = 1 := by
  unfold monitor_games_cycle
  simp only [List.countP_append]
  have h1 := check_epic_games_attempts w.env s w.epic w.time
  have h2 := check_steam_games_frame (check_epic_games w.env s w.epic w.time).1 w.steam
  rw [h1.1, h1.2, h2.2.2.1, h2.2.2.2]
  exact ⟨rfl, rfl⟩

/-! ## Claims -/

/-- C1, counterexample: the claim says two item records with the same
upstream id produced by two distinct platforms yield two store entries and
two notifications; on the code, processing the free record `gX` (id `"X"`)
under platform `epic_games` and then under platform `steam` from an empty
store yields one store entry and one notification, because `tracked_games`
is keyed by `game_id` alone. -/
theorem C1_counterexample :
    ((process_game_data happyEnv (process_game_data happyEnv [] gX "epic_games" 0).1
        gX "steam" 1).1.length = 1
      ∧ ¬ (process_game_data happyEnv (process_game_data happyEnv [] gX "epic_games" 0).1
        gX "steam" 1).1.length = 2)
    ∧ countAlerts ((process_game_data happyEnv [] gX "epic_games" 0).2
        ++ (process_game_data happyEnv (process_game_data happyEnv [] gX "epic_games" 0).1
             gX "steam" 1).2) = 1 := by
  refine ⟨⟨rfl, ?_⟩, rfl⟩
  decide

/-- C1, amended: the tracked-item store is keyed by the upstream id alone.
For every free record with a hashable id that is not yet tracked, processing
it under a first platform and then under any second platform yields a single
store entry (under the id) and a single notification: the second processing
is deduplicated regardless of platform. -/
theorem C1_store_keyed_by_id_alone (env : NotifyEnv) (p1 p2 : String) (t1 t2 : Nat)
    (s : Store) (fs : List (String × Json))
    (hfree : is_game_free (Json.obj fs) = true)
    (hhash : hashable ((getField fs "id").getD Json.null) = true)
    (hnew : Store.containsKey s ((getField fs "id").getD Json.null) = false) :
    (process_game_data env (process_game_data env s (Json.obj fs) p1 t1).1
        (Json.obj fs) p2 t2).1
      = Store.insertKey s ((getField fs "id").getD Json.null) t1
    ∧ countAlerts ((process_game_data env s (Json.obj fs) p1 t1).2
        ++ (process_game_data env (process_game_data env s (Json.obj fs) p1 t1).1
             (Json.obj fs) p2 t2).2) = 1 := by
  have h1 := process_new_free env s fs p1 t1 hfree hhash hnew
  have hc : Store.containsKey (process_game_data env s (Json.obj fs) p1 t1).1
      ((getField fs "id").getD Json.null) = true := by
    rw [h1]
    exact Store.containsKey_insertKey_self s _ t1
  have h2 := process_dup env (process_game_data env s (Json.obj fs) p1 t1).1 fs p2 t2
    hfree hhash hc
  rw [h2, h1]
  exact ⟨rfl, rfl⟩

/-- C1, witness for the amended theorem at the concrete record `gX`, the
platforms `epic_games` and `steam` and the empty store. -/
theorem C1_store_keyed_by_id_alone_witness :
    (is_game_free (Json.obj gXfields) = true
      ∧ hashable ((getField gXfields "id").getD Json.null) = true
      ∧ Store.containsKey [] ((getField gXfields "id").getD Json.null) = false)
    ∧ ((process_game_data happyEnv (process_game_data happyEnv [] (Json.obj gXfields)
          "epic_games" 0).1 (Json.obj gXfields) "steam" 1).1
        = Store.insertKey [] ((getField gXfields "id").getD Json.null) 0
      ∧ countAlerts ((process_game_data happyEnv [] (Json.obj gXfields) "epic_games" 0).2
          ++ (process_game_data happyEnv (process_game_data happyEnv [] (Json.obj gXfields)
               "epic_games" 0).1 (Json.obj gXfields) "steam" 1).2) = 1) :=
  ⟨⟨rfl, rfl, rfl⟩,
   C1_store_keyed_by_id_alone happyEnv "epic_games" "steam" 0 1 [] gXfields rfl rfl rfl⟩

/-- C2, counterexample: the claim says a record without an id is treated as a
malformed-response error, with no store entry and no notification; on the
code, processing the id-less free record `gNoId` from an empty store inserts
an entry under the key `None` and dispatches a notification. -/
theorem C2_counterexample :
    (process_game_data happyEnv [] gNoId "epic_games" 0).1.length = 1
    ∧ Store.containsKey (process_game_data happyEnv [] gNoId "epic_games" 0).1 Json.null = true
    ∧ countAlerts (process_game_data happyEnv [] gNoId "epic_games" 0).2 = 1 :=
  ⟨rfl, rfl, rfl⟩

/-- C2, amended: an absent id is not treated as an error.  For every free
record with no `id` field, `game_data.get('id')` yields `None`, and if `None`
is not yet tracked the record is inserted under the key `None` and one
notification is attempted; id-less free records are thus deduplicated against
one another through the shared `None` key. -/
theorem C2_missing_id_keyed_as_none (env : NotifyEnv) (s : Store) (t : Nat)
    (fs : List (String × Json))
    (hnoid : getField fs "id" = none)
    (hfree : is_game_free (Json.obj fs) = true)
    (hnew : Store.containsKey s Json.null = false) :
    process_game_data env s (Json.obj fs) "epic_games" t
      = (Store.insertKey s Json.null t,
         [Event.alert (Json.obj fs) "epic_games"
           (send_game_alert env (Json.obj fs) "epic_games")]) := by
  have h := process_new_free env s fs "epic_games" t hfree
    (by rw [hnoid]; rfl) (by rw [hnoid]; exact hnew)
  rw [hnoid] at h
  exact h

/-- C2, witness for the amended theorem at the concrete id-less record
`gNoId` and the empty store. -/
theorem C2_missing_id_keyed_as_none_witness :
    (getField gNoIdFields "id" = none
      ∧ is_game_free (Json.obj gNoIdFields) = true
      ∧ Store.containsKey [] Json.null = false)
    ∧ process_game_data happyEnv [] (Json.obj gNoIdFields) "epic_games" 0
      = (Store.insertKey [] Json.null 0,
         [Event.alert (Json.obj gNoIdFields) "epic_games"
           (send_game_alert happyEnv (Json.obj gNoIdFields) "epic_games")]) :=
  ⟨⟨rfl, rfl, rfl⟩, C2_missing_id_keyed_as_none happyEnv [] 0 gNoIdFields rfl rfl rfl⟩

/-- C3, counterexample: the claim says `isFree` returns true only when the
promotions structure contains at least one promotional-offer entry and
returns false on any malformed substructure; on the code, the record
`gBadOffers`, whose `promotionalOffers` value is the malformed non-list
`true`, is classified as free (the code tests Python truthiness), while the
spec rule classifies it as not free. -/
theorem C3_counterexample :
    is_game_free gBadOffers = true ∧ specIsFree gBadOffers = false :=
  ⟨rfl, rfl⟩

/-- C3, amended: the classifier is total, pure and exception-free, and it
returns the Python truthiness of the `promotionalOffers` value; on every
input whose promotions substructure is well formed (the offer list absent or
an actual list) it agrees with the spec rule "free iff at least one offer
entry", but a malformed truthy non-list `promotionalOffers` value is
classified as free rather than not free. -/
theorem C3_classifier_truthiness (g : Json) (hwf : offersWellFormed g = true) :
    is_game_free g = specIsFree g := by
  cases g with
  | obj fs =>
    cases hp : getField fs "promotions" with
    | none => simp [is_game_free, specIsFree, dictGet, getField, hp, truthy]
    | some p =>
      cases p with
      | obj pfs =>
        cases ho : getField pfs "promotionalOffers" with
        | none => simp [is_game_free, specIsFree, dictGet, getField, hp, ho, truthy]
        | some o =>
          cases o with
          | arr xs => simp [is_game_free, specIsFree, dictGet, hp, ho, truthy]
          | null => simp [offersWellFormed, dictGet, hp, ho] at hwf
          | bool b => simp [offersWellFormed, dictGet, hp, ho] at hwf
          | num n => simp [offersWellFormed, dictGet, hp, ho] at hwf
          | str s2 => simp [offersWellFormed, dictGet, hp, ho] at hwf
          | obj ofs => simp [offersWellFormed, dictGet, hp, ho] at hwf
      | null => simp [is_game_free, specIsFree, dictGet, hp]
      | bool b => simp [is_game_free, specIsFree, dictGet, hp]
      | num n => simp [is_game_free, specIsFree, dictGet, hp]
      | str s2 => simp [is_game_free, specIsFree, dictGet, hp]
      | arr xs => simp [is_game_free, specIsFree, dictGet, hp]
  | null => rfl
  | bool b => rfl
  | num n => rfl
  | str s2 => rfl
  | arr xs => rfl

/-- C3, witness for the amended theorem at the two well-formed scenario
records: the one-offer record is free, the empty-offer-list record is not. -/
theorem C3_classifier_truthiness_witness :
    (offersWellFormed gA1 = true ∧ offersWellFormed gA2 = true)
    ∧ is_game_free gA1 = specIsFree gA1
    ∧ is_game_free gA2 = specIsFree gA2 :=
  ⟨⟨rfl, rfl⟩, C3_classifier_truthiness gA1 rfl, C3_classifier_truthiness gA2 rfl⟩

/-- C4: deduplication is idempotent.  For every key, the first
check-then-insert reports the item as new and the second reports it as
already present; and processing the same free record (hashable id) in two
consecutive cycles from an empty store attempts exactly one notification and
leaves the store at size 1. -/
theorem C4_dedup_idempotent (s : Store) (k : Json) (t1 t2 : Nat) (env : NotifyEnv)
    (fs : List (String × Json))
    (hk : Store.containsKey s k = false)
    (hfree : is_game_free (Json.obj fs) = true)
    (hhash : hashable ((getField fs "id").getD Json.null) = true) :
    (tryInsert s k t1).2 = true
    ∧ (tryInsert (tryInsert s k t1).1 k t2).2 = false
    ∧ countAlerts ((process_game_data env [] (Json.obj fs) "epic_games" t1).2
        ++ (process_game_data env (process_game_data env [] (Json.obj fs) "epic_games" t1).1
             (Json.obj fs) "epic_games" t2).2) = 1
    ∧ (process_game_data env (process_game_data env [] (Json.obj fs) "epic_games" t1).1
        (Json.obj fs) "epic_games" t2).1.length = 1 := by
  have h1 := process_new_free env [] fs "epic_games" t1 hfree hhash rfl
  have hc : Store.containsKey (process_game_data env [] (Json.obj fs) "epic_games" t1).1
      ((getField fs "id").getD Json.null) = true := by
    rw [h1]
    exact Store.containsKey_insertKey_self [] _ t1
  have h2 := process_dup env (process_game_data env [] (Json.obj fs) "epic_games" t1).1
    fs "epic_games" t2 hfree hhash hc
  refine ⟨?_, ?_, ?_, ?_⟩
  · simp [tryInsert, hk]
  · simp [tryInsert, hk, Store.containsKey_insertKey_self]
  · rw [h2, h1]
    rfl
  · rw [h2, h1]
    rfl

/-- C4, witness at the concrete record `gA1`, key `"A1"`, empty store. -/
theorem C4_dedup_idempotent_witness :
    (Store.containsKey [] (Json.str "A1") = false
      ∧ is_game_free (Json.obj [("id", Json.str "A1"),
          ("promotions", Json.obj [("promotionalOffers", Json.arr [Json.obj []])])]) = true
      ∧ hashable ((getField [("id", Json.str "A1"),
          ("promotions", Json.obj [("promotionalOffers", Json.arr [Json.obj []])])]
          "id").getD Json.null) = true)
    ∧ (tryInsert [] (Json.str "A1") 0).2 = true
    ∧ (tryInsert (tryInsert [] (Json.str "A1") 0).1 (Json.str "A1") 1).2 = false
    ∧ countAlerts ((process_game_data happyEnv [] (Json.obj [("id", Json.str "A1"),
          ("promotions", Json.obj [("promotionalOffers", Json.arr [Json.obj []])])])
          "epic_games" 0).2
        ++ (process_game_data happyEnv (process_game_data happyEnv []
             (Json.obj [("id", Json.str "A1"),
               ("promotions", Json.obj [("promotionalOffers", Json.arr [Json.obj []])])])
             "epic_games" 0).1
             (Json.obj [("id", Json.str "A1"),
               ("promotions", Json.obj [("promotionalOffers", Json.arr [Json.obj []])])])
             "epic_games" 1).2) = 1
    ∧ (process_game_data happyEnv (process_game_data happyEnv []
         (Json.obj [("id", Json.str "A1"),
           ("promotions", Json.obj [("promotionalOffers", Json.arr [Json.obj []])])])
         "epic_games" 0).1
         (Json.obj [("id", Json.str "A1"),
           ("promotions", Json.obj [("promotionalOffers", Json.arr [Json.obj []])])])
         "epic_games" 1).1.length = 1 :=
  ⟨⟨rfl, rfl, rfl⟩,
   C4_dedup_idempotent [] (Json.str "A1") 0 1 happyEnv
     [("id", Json.str "A1"),
      ("promotions", Json.obj [("promotionalOffers", Json.arr [Json.obj []])])]
     rfl rfl rfl⟩

/-- C5: a notification-delivery failure is absorbed without rollback.  For
every new free record whose insertion succeeded, even when `send_game_alert`
does not deliver, the store entry is in place afterwards, and processing the
same record again changes nothing and attempts no further notification. -/
theorem C5_notify_failure_no_rollback (env : NotifyEnv) (s : Store)
    (fs : List (String × Json)) (p : String) (t1 t2 : Nat)
    (hfree : is_game_free (Json.obj fs) = true)
    (hhash : hashable ((getField fs "id").getD Json.null) = true)
    (hnew : Store.containsKey s ((getField fs "id").getD Json.null) = false)
    (_hfail : send_game_alert env (Json.obj fs) p ≠ SendOutcome.delivered) :
    Store.containsKey (process_game_data env s (Json.obj fs) p t1).1
        ((getField fs "id").getD Json.null) = true
    ∧ process_game_data env (process_game_data env s (Json.obj fs) p t1).1
        (Json.obj fs) p t2
      = ((process_game_data env s (Json.obj fs) p t1).1, []) := by
  have h1 := process_new_free env s fs p t1 hfree hhash hnew
  have hc : Store.containsKey (process_game_data env s (Json.obj fs) p t1).1
      ((getField fs "id").getD Json.null) = true := by
    rw [h1]
    exact Store.containsKey_insertKey_self s _ t1
  exact ⟨hc, process_dup env _ fs p t2 hfree hhash hc⟩

/-- C5, witness at the record `gX` and an environment in which
`channel.send` raises. -/
theorem C5_notify_failure_no_rollback_witness :
    (is_game_free (Json.obj gXfields) = true
      ∧ hashable ((getField gXfields "id").getD Json.null) = true
      ∧ Store.containsKey [] ((getField gXfields "id").getD Json.null) = false
      ∧ send_game_alert sendFailEnv (Json.obj gXfields) "epic_games" ≠ SendOutcome.delivered)
    ∧ Store.containsKey (process_game_data sendFailEnv [] (Json.obj gXfields)
        "epic_games" 0).1 ((getField gXfields "id").getD Json.null) = true
    ∧ process_game_data sendFailEnv (process_game_data sendFailEnv [] (Json.obj gXfields)
        "epic_games" 0).1 (Json.obj gXfields) "epic_games" 1
      = ((process_game_data sendFailEnv [] (Json.obj gXfields) "epic_games" 0).1, []) :=
  ⟨⟨rfl, rfl, rfl, by decide⟩,
   C5_notify_failure_no_rollback sendFailEnv [] gXfields "epic_games" 0 1
     rfl rfl rfl (by decide)⟩

/-- C6: the scheduler loop never terminates on a stage error.  Over any
schedule of cycles — each with arbitrary fetch outcomes (including errors),
bodies and delivery environments — every cycle attempts the Epic fetch and
the Steam fetch exactly once; and in a cycle whose Epic stage fails with a
transport error, the error is logged and the Steam fetch is still attempted
in that same cycle. -/
theorem C6_loop_survives_stage_errors (s : Store) (ws : List World) (w : World) :
    ((run_cycles s ws).2.countP isEpicAttempt = ws.length
      ∧ (run_cycles s ws).2.countP isSteamAttempt = ws.length)
    ∧ Event.errorLog "Epic Games API error"
        ∈ (monitor_games_cycle s ⟨FetchResult.transportError, w.steam, w.env, w.time⟩).2
    ∧ ∃ e ∈ (monitor_games_cycle s ⟨FetchResult.transportError, w.steam, w.env, w.time⟩).2,
        isSteamAttempt e = true := by
  refine ⟨?_, ?_, ?_⟩
  · induction ws generalizing s with
    | nil => exact ⟨rfl, rfl⟩
    | cons w2 rest ih =>
      have hcy := monitor_cycle_attempts s w2
      have hrest := ih (monitor_games_cycle s w2).1
      simp only [run_cycles, List.countP_append]
      rw [hcy.1, hcy.2, hrest.1, hrest.2]
      simp only [List.length_cons]
      omega
  · simp [monitor_games_cycle, check_epic_games]
  · have hs := check_steam_games_frame
      (check_epic_games w.env s FetchResult.transportError w.time).1 w.steam
    have hpos : 0 < (check_steam_games
        (check_epic_games w.env s FetchResult.transportError w.time).1 w.steam).2.countP
        isSteamAttempt := by
      rw [hs.2.2.1]
      exact Nat.one_pos
    rw [List.countP_pos_iff] at hpos
    obtain ⟨e, he, hpe⟩ := hpos
    exact ⟨e, by simp [monitor_games_cycle, List.mem_append]; right; exact he, hpe⟩

/-- C7: an Epic fetch failure — transport error, JSON-decode error,
non-success status, or a 200 body whose expected nested path is absent or
malformed — leaves the tracked-item store unchanged, dispatches zero
notifications, and completes the cycle without propagating the error. -/
theorem C7_fetch_failure_atomic (env : NotifyEnv) (s : Store) (r : FetchResult) (t : Nat)
    (h : epicFetchFails r = true) :
    (check_epic_games env s r t).1 = s
    ∧ countAlerts (check_epic_games env s r t).2 = 0 := by
  cases r with
  | transportError => exact ⟨rfl, rfl⟩
  | response status body =>
    by_cases hst : status = 200
    · cases body with
      | none => simp [check_epic_games, hst, countAlerts, isAlert]
      | some data =>
        cases hE : extractGames data with
        | error e => simp [check_epic_games, hst, hE, countAlerts, isAlert]
        | ok elements =>
          cases hI : jsonIter elements with
          | none => simp [check_epic_games, hst, hE, hI, countAlerts, isAlert]
          | some games =>
            rw [epicFetchFails] at h
            simp [hst, hE, hI] at h
    · simp [check_epic_games, hst, countAlerts, isAlert]

/-- C7, witness at a transport error against a nonempty store. -/
theorem C7_fetch_failure_atomic_witness :
    epicFetchFails FetchResult.transportError = true
    ∧ (check_epic_games happyEnv [(Json.str "A1", 5)] FetchResult.transportError 7).1
        = [(Json.str "A1", 5)]
    ∧ countAlerts (check_epic_games happyEnv [(Json.str "A1", 5)]
        FetchResult.transportError 7).2 = 0 :=
  ⟨rfl, (C7_fetch_failure_atomic happyEnv [(Json.str "A1", 5)]
     FetchResult.transportError 7 rfl).1,
   (C7_fetch_failure_atomic happyEnv [(Json.str "A1", 5)]
     FetchResult.transportError 7 rfl).2⟩

/-- C8, end-to-end scenario A: when a 200 Epic response carries exactly the
two records `{id:"A1", promotions:{promotionalOffers:[{}]}}` (the spec's
`offers` list is the code's `promotionalOffers` field) and
`{id:"A2", promotions:{promotionalOffers:[]}}`, processing into an empty
store dispatches exactly one notification — for `"A1"` — and the store size
becomes 1. -/
theorem C8_scenario_A :
    (check_epic_games happyEnv [] (FetchResult.response 200 (some scenarioABody)) 0).1
      = [(Json.str "A1", 0)]
    ∧ (check_epic_games happyEnv [] (FetchResult.response 200 (some scenarioABody)) 0).1.length
      = 1
    ∧ (check_epic_games happyEnv [] (FetchResult.response 200 (some scenarioABody)) 0).2
      = [Event.epicAttempt, Event.alert gA1 "epic_games" SendOutcome.delivered]
    ∧ countAlerts (check_epic_games happyEnv []
        (FetchResult.response 200 (some scenarioABody)) 0).2 = 1 :=
  ⟨rfl, rfl, rfl, rfl⟩

/-- C9: the Steam source is a stub.  For every store and every fetch outcome,
`check_steam_games` leaves the store unchanged and attempts no notification;
and in every monitor cycle the store after the cycle is exactly the store
after the Epic check, so only the Epic source can add entries. -/
theorem C9_steam_stub_frame (s : Store) (r : FetchResult) (w : World) :
    (check_steam_games s r).1 = s
    ∧ countAlerts (check_steam_games s r).2 = 0
    ∧ (monitor_games_cycle s w).1 = (check_epic_games w.env s w.epic w.time).1 := by
  refine ⟨(check_steam_games_frame s r).1, (check_steam_games_frame s r).2.1, ?_⟩
  exact (check_steam_games_frame (check_epic_games w.env s w.epic w.time).1 w.steam).1

/-- C10: per-record failure isolation.  For every record list split as
`pre ++ bad :: post` where processing `bad` raises inside
`process_game_data`'s `try`, the final store is the one obtained by
processing `pre` and then `post` with `bad` skipped, and every key tracked
after `pre` is still tracked at the end. -/
theorem C10_record_failure_isolation (env : NotifyEnv) (s : Store)
    (pre post : List Json) (bad : Json) (p : String) (t : Nat)
    (hbad : isError (process_inner env (processAll env s pre p t).1 bad p t) = true) :
    (processAll env s (pre ++ bad :: post) p t).1
      = (processAll env (processAll env s pre p t).1 post p t).1
    ∧ ∀ k, Store.containsKey (processAll env s pre p t).1 k = true →
        Store.containsKey (processAll env s (pre ++ bad :: post) p t).1 k = true := by
  have hsplit := processAll_append env s pre (bad :: post) p t
  have hb := process_error env (processAll env s pre p t).1 bad p t hbad
  have hmain : (processAll env s (pre ++ bad :: post) p t).1
      = (processAll env (processAll env s pre p t).1 post p t).1 := by
    rw [hsplit]
    simp only [processAll]
    rw [hb]
  refine ⟨hmain, ?_⟩
  intro k hk
  rw [hmain]
  exact processAll_containsKey_mono env _ post p t k hk

/-- C10, witness: `pre = [gA1]`, `bad` a non-dict record (its attribute
access raises), `post = [gA3]`; the key `"A1"` tracked after `pre` is still
tracked at the end and the final store is as if `bad` were skipped. -/
theorem C10_record_failure_isolation_witness :
    isError (process_inner happyEnv (processAll happyEnv [] [gA1] "epic_games" 0).1
        (Json.str "oops") "epic_games" 0) = true
    ∧ ((processAll happyEnv [] ([gA1] ++ Json.str "oops" :: [gA3]) "epic_games" 0).1
        = (processAll happyEnv (processAll happyEnv [] [gA1] "epic_games" 0).1
            [gA3] "epic_games" 0).1
      ∧ ∀ k, Store.containsKey (processAll happyEnv [] [gA1] "epic_games" 0).1 k = true →
          Store.containsKey (processAll happyEnv []
            ([gA1] ++ Json.str "oops" :: [gA3]) "epic_games" 0).1 k = true) :=
  ⟨rfl, C10_record_failure_isolation happyEnv [] [gA1] [gA3] (Json.str "oops")
     "epic_games" 0 rfl⟩

end GameMonitor
